import Mathlib

/-!
Verification of the AeroVision-V1-Server review orchestration layer.

Shallow embedding of the coordination core of the repository:
the single-item review pipeline (`app/services/review_service.py`,
`ReviewService.review`), the batch review pipeline
(`ReviewService.review_batch` together with the batch helpers in
`app/services/quality_service.py`, `app/services/_classifier_base.py`,
`app/services/registration_service.py`), the batch HTTP route
(`app/api/routes/review.py`), and the Redis-backed distributed counters
(`app/core/redis_client.py`).

External collaborators (the image loader, the four inference adapters and
the Redis store) are modelled as explicit function parameters returning
`Except String _`: a `.error` value models the collaborator raising a
Python exception.  Scores are modelled as `Rat`; the pydantic schemas bound
them to [0,1], a constraint no claim here depends on.
-/

namespace AeroVision

/-- Opaque handle to a decoded in-memory image (PIL.Image in the source). -/
structure PILImage where
  id : Nat
deriving DecidableEq

/-! Data model, from `app/schemas`. -/

/-- QualityDetails from `app/schemas/quality.py`. -/
structure QualityDetails where
  sharpness : Rat
  exposure : Rat
  composition : Rat
  noise : Rat
  color : Rat
deriving DecidableEq

/-- QualityResult from `app/schemas/quality.py` (field `pass` is `pass_`). -/
structure QualityResult where
  pass_ : Bool
  score : Rat
  details : QualityDetails
deriving DecidableEq

/-- Prediction from `app/schemas/aircraft.py` and `app/schemas/airline.py`
(the two source classes are textually identical; field `class` is `class_`). -/
structure Prediction where
  class_ : String
  confidence : Rat
deriving DecidableEq

/-- AircraftResult from `app/schemas/aircraft.py`. -/
structure AircraftResult where
  top1 : Prediction
  top_k : Nat
  predictions : List Prediction
deriving DecidableEq

/-- AirlineResult from `app/schemas/airline.py`. -/
structure AirlineResult where
  top1 : Prediction
  top_k : Nat
  predictions : List Prediction
deriving DecidableEq

/-- OcrMatch from `app/schemas/registration.py`. -/
structure OcrMatch where
  text : String
  confidence : Rat
deriving DecidableEq

/-- YoloBox from `app/schemas/registration.py`. -/
structure YoloBox where
  class_id : Nat
  x_center : Rat
  y_center : Rat
  width : Rat
  height : Rat
  text : String
  confidence : Rat
deriving DecidableEq

/-- RegistrationResult from `app/schemas/registration.py`. -/
structure RegistrationResult where
  registration : String
  confidence : Rat
  raw_text : String
  all_matches : List OcrMatch
  yolo_boxes : List YoloBox
deriving DecidableEq

/-- ReviewQualityResult from `app/schemas/review.py`. -/
structure ReviewQualityResult where
  score : Rat
  pass_ : Bool
  details : Option QualityDetails
deriving DecidableEq

/-- ReviewAircraftResult from `app/schemas/review.py`. -/
structure ReviewAircraftResult where
  type_code : String
  confidence : Rat
deriving DecidableEq

/-- ReviewAirlineResult from `app/schemas/review.py`. -/
structure ReviewAirlineResult where
  airline_code : String
  confidence : Rat
deriving DecidableEq

/-- ReviewRegistrationResult from `app/schemas/review.py`. -/
structure ReviewRegistrationResult where
  registration : String
  confidence : Rat
  clarity : Rat
deriving DecidableEq

/-- ReviewResult from `app/schemas/review.py`: quality and aircraft are
required fields, airline and registration are Optional. -/
structure ReviewResult where
  quality : ReviewQualityResult
  aircraft : ReviewAircraftResult
  airline : Option ReviewAirlineResult
  registration : Option ReviewRegistrationResult
deriving DecidableEq

/-- BatchReviewItem from `app/schemas/review.py`. -/
structure BatchReviewItem where
  index : Nat
  success : Bool
  data : Option ReviewResult
  error : Option String
deriving DecidableEq

/-- BatchReviewResponse from `app/schemas/review.py`. -/
structure BatchReviewResponse where
  total : Nat
  successful : Nat
  failed : Nat
  results : List BatchReviewItem
deriving DecidableEq

/-- Feature flags of `ReviewService.review` and `ReviewService.review_batch`. -/
structure ReviewFlags where
  include_quality : Bool
  include_aircraft : Bool
  include_airline : Bool
  include_registration : Bool
deriving DecidableEq

/-! Single-item pipeline, from `app/services/review_service.py` lines 33-139
and `app/services/base.py`. -/

/-- BaseService.safe_execute (`app/services/base.py` lines 96-114): run a
fallible call and return `none` when it raises any exception. -/
def BaseService.safe_execute (f : α → Except String β) (a : α) : Option β :=
  (f a).toOption

/-- Environment of external collaborators used by `ReviewService.review`.
Each adapter field models the composite sub-service call handed to
safe_execute (for example `quality_service._assess_image`, which runs the
inference model and wraps its raw output); it returns the typed result
paired with the per-call timing, or `.error` when any layer raises. -/
structure SingleEnv where
  load_image : String → Except String PILImage
  assess_image : PILImage → Except String (QualityResult × Rat)
  classify_aircraft : PILImage → Except String (AircraftResult × Rat)
  classify_airline : PILImage → Except String (AirlineResult × Rat)
  recognize_image : PILImage → Except String (RegistrationResult × Rat)

/-- Quality field built from a successful quality sub-result
(`review_service.py` lines 74-78). -/
def mkReviewQuality (q : QualityResult) : ReviewQualityResult :=
  { score := q.score, pass_ := q.pass_, details := some q.details }

/-- Aircraft field built from a successful aircraft sub-result
(`review_service.py` lines 86-89). -/
def mkReviewAircraft (a : AircraftResult) : ReviewAircraftResult :=
  { type_code := a.top1.class_, confidence := a.top1.confidence }

/-- Airline field built from a successful airline sub-result
(`review_service.py` lines 97-100). -/
def mkReviewAirline (a : AirlineResult) : ReviewAirlineResult :=
  { airline_code := a.top1.class_, confidence := a.top1.confidence }

/-- Registration field built from a successful registration sub-result;
the OCR confidence is reused as the clarity score
(`review_service.py` lines 109-113). -/
def mkReviewRegistration (r : RegistrationResult) : ReviewRegistrationResult :=
  { registration := r.registration, confidence := r.confidence, clarity := r.confidence }

/-- Default quality value when the mandatory quality field is absent
(`review_service.py` lines 117-122). -/
def defaultReviewQuality : ReviewQualityResult :=
  { score := 0, pass_ := false, details := none }

/-- Default aircraft value when the mandatory aircraft field is absent
(`review_service.py` lines 125-129). -/
def defaultReviewAircraft : ReviewAircraftResult :=
  { type_code := "UNKNOWN", confidence := 0 }

/-- ReviewService.review (`app/services/review_service.py` lines 33-139).
The wall clock is a parameter queried once at entry and once at exit; its
two readings produce the returned timing in milliseconds.  Image loading
failure propagates as `.error`; every sub-service call is wrapped in
safe_execute, and the mandatory quality and aircraft fields are filled
with defaults when still absent. -/
def ReviewService.review (env : SingleEnv) (flags : ReviewFlags)
    (image_input : String) (clock : Nat → Rat) :
    Except String (ReviewResult × Rat) := do
  let start_time := clock 0
  let image ← env.load_image image_input
  let quality_result : Option ReviewQualityResult :=
    if flags.include_quality then
      match BaseService.safe_execute env.assess_image image with
      | some (quality_data, _) => some (mkReviewQuality quality_data)
      | none => none
    else none
  let aircraft_result : Option ReviewAircraftResult :=
    if flags.include_aircraft then
      match BaseService.safe_execute env.classify_aircraft image with
      | some (aircraft_data, _) => some (mkReviewAircraft aircraft_data)
      | none => none
    else none
  let airline_result : Option ReviewAirlineResult :=
    if flags.include_airline then
      match BaseService.safe_execute env.classify_airline image with
      | some (airline_data, _) => some (mkReviewAirline airline_data)
      | none => none
    else none
  let registration_result : Option ReviewRegistrationResult :=
    if flags.include_registration then
      match BaseService.safe_execute env.recognize_image image with
      | some (reg_data, _) => some (mkReviewRegistration reg_data)
      | none => none
    else none
  let quality_final := quality_result.getD defaultReviewQuality
  let aircraft_final := aircraft_result.getD defaultReviewAircraft
  let result : ReviewResult :=
    { quality := quality_final, aircraft := aircraft_final,
      airline := airline_result, registration := registration_result }
  let timing := (clock 1 - start_time) * 1000
  return (result, timing)

/-! Batch pipeline, from `app/services/review_service.py` lines 141-308 and
the batch helpers of the individual services.  asyncio.gather is
deterministic about the order in which it delivers results (it returns them
in task submission order), so the batch pipeline is modelled as a pure
function of the collaborators; scheduling interleavings do not affect any
value the claims speak about. -/

/-- External collaborators of one classification service: the raw batch
classifier (`classifier.predict` on a list of images, which may raise as a
whole) and the per-item result wrapper (`self._result_wrapper`, which may
raise per item). -/
structure ClassifierEnv (Raw Res : Type) where
  predict : List PILImage → Except String (List (Option Raw))
  result_wrapper : Raw → Except String Res

/-- ClassificationServiceBase._classify_batch
(`app/services/_classifier_base.py` lines 136-174): keep the positions of
the images that loaded, run one batch prediction over the compacted list
(the `sorted` call in the source sorts an already index-sorted list and is
omitted), then scatter the wrapped results back to their original slots,
with `none` for failed loads, missing predictions and wrapper errors. -/
def ClassificationServiceBase.classify_batch (cenv : ClassifierEnv Raw Res)
    (images : List (Option PILImage)) : Except String (List (Option Res)) :=
  let valid_images := images.enum.filterMap fun p => p.2.map fun img => (p.1, img)
  if valid_images.isEmpty then
    .ok (images.map fun _ => none)
  else
    match cenv.predict (valid_images.map Prod.snd) with
    | .error e => .error e
    | .ok batch_results =>
      let indices := valid_images.map Prod.fst
      .ok ((indices.zip batch_results).foldl
        (fun results p =>
          match p.2 with
          | none => results
          | some raw => results.set p.1 (cenv.result_wrapper raw).toOption)
        (images.map fun _ => none))

/-- QualityService._assess_batch (`app/services/quality_service.py`
lines 111-134): assess each loaded image in turn, catching per-image
exceptions; failed loads and failed assessments both yield `none`. -/
def QualityService.assess_batch
    (assess : PILImage → Except String (QualityResult × Rat))
    (images : List (Option PILImage)) : List (Option QualityResult) :=
  images.map fun oimg =>
    match oimg with
    | none => none
    | some img =>
      match assess img with
      | .ok (r, _) => some r
      | .error _ => none

/-- RegistrationService._recognize_batch
(`app/services/registration_service.py` lines 111-140): one recognition
task per image on a thread pool, each task catching its own exceptions and
reporting back under its original index; the scatter by index makes it a
per-image map. -/
def RegistrationService.recognize_batch
    (recognize : PILImage → Except String (RegistrationResult × Rat))
    (images : List (Option PILImage)) : List (Option RegistrationResult) :=
  images.map fun oimg =>
    match oimg with
    | none => none
    | some img =>
      match recognize img with
      | .ok (r, _) => some r
      | .error _ => none

/-- External collaborators used by `ReviewService.review_batch`. -/
structure BatchEnv (ARaw LRaw : Type) where
  load_image : String → Except String PILImage
  assess_image : PILImage → Except String (QualityResult × Rat)
  aircraft : ClassifierEnv ARaw AircraftResult
  airline : ClassifierEnv LRaw AirlineResult
  recognize_image : PILImage → Except String (RegistrationResult × Rat)

/-- Per-input result of the parallel image loading phase
(`review_service.py` lines 163-175): the loaded image or the caught
exception message. -/
def load_pair (env : BatchEnv ARaw LRaw) (s : String) :
    Option PILImage × Option String :=
  match env.load_image s with
  | .ok img => (some img, none)
  | .error e => (none, some e)

/-- The `images` list of `review_batch` (`review_service.py` line 174). -/
def batch_images (env : BatchEnv ARaw LRaw) (image_inputs : List String) :
    List (Option PILImage) :=
  (image_inputs.map (load_pair env)).map Prod.fst

/-- The `image_errors` list of `review_batch` (`review_service.py` line 175). -/
def batch_image_errors (env : BatchEnv ARaw LRaw) (image_inputs : List String) :
    List (Option String) :=
  (image_inputs.map (load_pair env)).map Prod.snd

/-- The `quality_results` entry of `results_map` (`review_service.py`
lines 181-216): absent when the sub-task was not requested.  The quality
batch helper catches every per-image exception itself, so its gathered
task never surfaces an exception. -/
def batch_quality_results (env : BatchEnv ARaw LRaw) (flags : ReviewFlags)
    (image_inputs : List String) : Option (List (Option QualityResult)) :=
  if flags.include_quality then
    some (QualityService.assess_batch env.assess_image (batch_images env image_inputs))
  else none

/-- The `aircraft_results` entry of `results_map` (`review_service.py`
lines 188-217): absent when not requested or when the whole batch call
raised (gather with return_exceptions=True delivers the exception, which
`review_batch` replaces with None). -/
def batch_aircraft_results (env : BatchEnv ARaw LRaw) (flags : ReviewFlags)
    (image_inputs : List String) : Option (List (Option AircraftResult)) :=
  if flags.include_aircraft then
    (ClassificationServiceBase.classify_batch env.aircraft (batch_images env image_inputs)).toOption
  else none

/-- The `airline_results` entry of `results_map` (`review_service.py`
lines 191-218), same shape as the aircraft entry. -/
def batch_airline_results (env : BatchEnv ARaw LRaw) (flags : ReviewFlags)
    (image_inputs : List String) : Option (List (Option AirlineResult)) :=
  if flags.include_airline then
    (ClassificationServiceBase.classify_batch env.airline (batch_images env image_inputs)).toOption
  else none

/-- The `registration_results` entry of `results_map` (`review_service.py`
lines 194-219): absent when not requested; the registration batch helper
catches every per-image exception itself. -/
def batch_registration_results (env : BatchEnv ARaw LRaw) (flags : ReviewFlags)
    (image_inputs : List String) : Option (List (Option RegistrationResult)) :=
  if flags.include_registration then
    some (RegistrationService.recognize_batch env.recognize_image (batch_images env image_inputs))
  else none

/-- Guarded per-index lookup `xs[idx] if (xs is not None and idx < len(xs))
else None` used four times in the reassembly loop (`review_service.py`
lines 236-239). -/
def lookup_result (results : Option (List (Option α))) (idx : Nat) : Option α :=
  match results with
  | some l => (l.get? idx).getD none
  | none => none

/-- The try block of the reassembly loop (`review_service.py`
lines 241-306), applied to the four per-index sub-task lookups.  The final
match models the pydantic validation of `ReviewResult`, whose `quality`
and `aircraft` fields are required: passing None for either raises inside
the try block, which the loop converts into a per-item error. -/
def build_item (flags : ReviewFlags)
    (quality_result : Option QualityResult)
    (aircraft_result : Option AircraftResult)
    (airline_result : Option AirlineResult)
    (registration_result : Option RegistrationResult)
    (idx : Nat) : BatchReviewItem :=
  let review_quality : Option ReviewQualityResult :=
    if flags.include_quality then
      some (match quality_result with
        | some q => mkReviewQuality q
        | none => defaultReviewQuality)
    else none
  let review_aircraft : Option ReviewAircraftResult :=
    if flags.include_aircraft then
      some (match aircraft_result with
        | some a => mkReviewAircraft a
        | none => defaultReviewAircraft)
    else none
  let review_airline : Option ReviewAirlineResult :=
    if flags.include_airline then airline_result.map mkReviewAirline else none
  let review_registration : Option ReviewRegistrationResult :=
    if flags.include_registration then registration_result.map mkReviewRegistration else none
  match review_quality, review_aircraft with
  | some q, some a =>
    { index := idx, success := true,
      data := some { quality := q, aircraft := a,
                     airline := review_airline, registration := review_registration },
      error := none }
  | _, _ =>
    { index := idx, success := false, data := none,
      error := some "Review failed: 1 validation error for ReviewResult" }

/-- Body of the reassembly loop of `review_batch` (`review_service.py`
lines 223-306) for one index: a load failure emits the error item,
otherwise the four guarded per-index lookups feed the try block. -/
def assemble_item (flags : ReviewFlags)
    (image_errors : List (Option String))
    (quality_results : Option (List (Option QualityResult)))
    (aircraft_results : Option (List (Option AircraftResult)))
    (airline_results : Option (List (Option AirlineResult)))
    (registration_results : Option (List (Option RegistrationResult)))
    (idx : Nat) : BatchReviewItem :=
  match (image_errors.get? idx).getD none with
  | some e => { index := idx, success := false, data := none, error := some e }
  | none =>
    build_item flags (lookup_result quality_results idx)
      (lookup_result aircraft_results idx)
      (lookup_result airline_results idx)
      (lookup_result registration_results idx) idx

/-- ReviewService.review_batch (`app/services/review_service.py`
lines 141-308): load all images, run the enabled batch sub-tasks, then
reassemble one item per original index. -/
def ReviewService.review_batch (env : BatchEnv ARaw LRaw) (flags : ReviewFlags)
    (image_inputs : List String) : List BatchReviewItem :=
  (List.range image_inputs.length).map
    (assemble_item flags (batch_image_errors env image_inputs)
      (batch_quality_results env flags image_inputs)
      (batch_aircraft_results env flags image_inputs)
      (batch_airline_results env flags image_inputs)
      (batch_registration_results env flags image_inputs))

/-- Batch route handler `review_batch` (`app/api/routes/review.py`
lines 58-99): wrap the service results with the total and the
success/failure counts. -/
def review_batch_route (env : BatchEnv ARaw LRaw) (flags : ReviewFlags)
    (image_inputs : List String) : BatchReviewResponse :=
  let service_results := ReviewService.review_batch env flags image_inputs
  let successful := (service_results.filter fun r => r.success).length
  let failed := service_results.length - successful
  { total := service_results.length, successful := successful,
    failed := failed, results := service_results }

/-! Distributed counters, from `app/core/redis_client.py`. -/

/-- The four Redis keys of the stats store (`stats:request_count`,
`stats:success_count`, `stats:error_count`, `stats:start_time`). -/
structure RedisStore where
  request_count : Nat
  success_count : Nat
  error_count : Nat
  start_time : Option Rat
deriving DecidableEq

/-- Reachability of the shared store: every Redis round trip either acts on
the store or raises a connection error. -/
inductive RedisConn where
  | unreachable
  | reachable (store : RedisStore)
deriving DecidableEq

/-- The raw increment pipeline (`redis_client.py` lines 69-76): INCR the
request counter and the success or error counter; raises when the store is
unreachable. -/
def redis_incr_pipeline (conn : RedisConn) (success : Bool) :
    Except String RedisConn :=
  match conn with
  | .unreachable => .error "Redis connection refused"
  | .reachable s =>
    if success then
      .ok (.reachable { s with request_count := s.request_count + 1,
                               success_count := s.success_count + 1 })
    else
      .ok (.reachable { s with request_count := s.request_count + 1,
                               error_count := s.error_count + 1 })

/-- RedisStatsManager.increment_request_count (`redis_client.py`
lines 61-78): the store round trip is wrapped in try/except; on failure the
exception is logged and dropped and no local state is kept (the comment in
the source mentions a local fallback, but no fallback code exists). -/
def RedisStatsManager.increment_request_count (conn : RedisConn)
    (success : Bool) : RedisConn :=
  match redis_incr_pipeline conn success with
  | .ok conn2 => conn2
  | .error _ => conn

/-- Stats payload returned by `get_request_stats` (`redis_client.py`
lines 116-133). -/
structure RequestStats where
  total_requests : Nat
  successful_requests : Nat
  failed_requests : Nat
  uptime_seconds : Rat
  requests_per_second : Rat
  error : Option String
deriving DecidableEq

/-- The degraded payload returned when the store round trip raises
(`redis_client.py` lines 126-133). -/
def unavailableStats : RequestStats :=
  { total_requests := 0, successful_requests := 0, failed_requests := 0,
    uptime_seconds := 0, requests_per_second := 0,
    error := some "Redis unavailable" }

/-- The raw read pipeline of `get_request_stats` (`redis_client.py`
lines 90-122): GET the four keys, default missing counters to zero,
initialize the start-time key on first read, and derive uptime and
throughput at read time; raises when the store is unreachable. -/
def redis_read_pipeline (conn : RedisConn) (now : Rat) :
    Except String (RedisConn × RequestStats) :=
  match conn with
  | .unreachable => .error "Redis connection refused"
  | .reachable s =>
    let start_time := s.start_time.getD now
    let conn2 : RedisConn :=
      match s.start_time with
      | none => .reachable { s with start_time := some now }
      | some _ => .reachable s
    let uptime := now - start_time
    let rps := if uptime > 0 then (s.request_count : Rat) / uptime else 0
    .ok (conn2,
      { total_requests := s.request_count,
        successful_requests := s.success_count,
        failed_requests := s.error_count,
        uptime_seconds := uptime,
        requests_per_second := rps,
        error := none })

/-- RedisStatsManager.get_request_stats (`redis_client.py` lines 82-133):
the read round trip is wrapped in try/except; on failure the caller gets
the zero-valued payload with the unavailability flag instead of an
exception. -/
def RedisStatsManager.get_request_stats (conn : RedisConn) (now : Rat) :
    RedisConn × RequestStats :=
  match redis_read_pipeline conn now with
  | .ok r => r
  | .error _ => (conn, unavailableStats)

/-! Orchestration latency model.  The shape of each pipeline is embedded as
a term: `call` is one adapter invocation that blocks for its duration,
`seq` is Python statement sequencing, and `par` is the fan-out/fan-in join
of asyncio.gather.  Wall-clock latency is the standard cost semantics:
sequencing adds durations, a join waits for its slowest branch. -/

inductive Orchestration where
  | call (duration : Nat)
  | skip
  | seq (a b : Orchestration)
  | par (a b : Orchestration)
deriving DecidableEq

/-- Wall-clock duration of an orchestration shape. -/
def Orchestration.elapsed : Orchestration → Nat
  | .call d => d
  | .skip => 0
  | .seq a b => a.elapsed + b.elapsed
  | .par a b => max a.elapsed b.elapsed

/-- Stub durations for the four sub-task adapters. -/
structure SubtaskDurations where
  quality : Nat
  aircraft : Nat
  airline : Nat
  registration : Nat
deriving DecidableEq

/-- One optional sub-task invocation: a disabled sub-task costs nothing. -/
def subtask (enabled : Bool) (d : Nat) : Orchestration :=
  if enabled then .call d else .skip

/-- Orchestration shape of `ReviewService.review` (`review_service.py`
lines 68-113): the four guarded safe_execute blocks are sequential
statements on one thread, with no task dispatch between them. -/
def review_orchestration (flags : ReviewFlags) (d : SubtaskDurations) :
    Orchestration :=
  .seq (subtask flags.include_quality d.quality)
    (.seq (subtask flags.include_aircraft d.aircraft)
      (.seq (subtask flags.include_airline d.airline)
        (subtask flags.include_registration d.registration)))

/-- Orchestration shape of the sub-task phase of
`ReviewService.review_batch` (`review_service.py` lines 177-203): the
enabled batch calls are distinct tasks joined by one asyncio.gather. -/
def review_batch_orchestration (flags : ReviewFlags) (d : SubtaskDurations) :
    Orchestration :=
  .par (subtask flags.include_quality d.quality)
    (.par (subtask flags.include_aircraft d.aircraft)
      (.par (subtask flags.include_airline d.airline)
        (subtask flags.include_registration d.registration)))

/-- Duration of the slowest enabled sub-task, the bound named by the spec. -/
def slowest_enabled_latency (flags : ReviewFlags) (d : SubtaskDurations) : Nat :=
  max (if flags.include_quality then d.quality else 0)
    (max (if flags.include_aircraft then d.aircraft else 0)
      (max (if flags.include_airline then d.airline else 0)
        (if flags.include_registration then d.registration else 0)))

/-- Sum of the enabled sub-task durations. -/
def total_enabled_latency (flags : ReviewFlags) (d : SubtaskDurations) : Nat :=
  (if flags.include_quality then d.quality else 0) +
    (if flags.include_aircraft then d.aircraft else 0) +
    (if flags.include_airline then d.airline else 0) +
    (if flags.include_registration then d.registration else 0)

/-! Concrete fixtures used by the witness theorems. -/

/-- Sample per-dimension quality breakdown. -/
def sampleDetails : QualityDetails :=
  { sharpness := 1, exposure := 1, composition := 1, noise := 1, color := 1 }

/-- Sample successful quality sub-result. -/
def sampleQuality : QualityResult :=
  { pass_ := true, score := 1, details := sampleDetails }

/-- Sample successful aircraft sub-result. -/
def sampleAircraft : AircraftResult :=
  { top1 := { class_ := "B738", confidence := 1 }, top_k := 5,
    predictions := [{ class_ := "B738", confidence := 1 }] }

/-- Sample successful airline sub-result. -/
def sampleAirline : AirlineResult :=
  { top1 := { class_ := "RYR", confidence := 1 }, top_k := 5,
    predictions := [{ class_ := "RYR", confidence := 1 }] }

/-- Sample successful registration sub-result. -/
def sampleRegistration : RegistrationResult :=
  { registration := "EI-DWF", confidence := 1, raw_text := "EI-DWF",
    all_matches := [{ text := "EI-DWF", confidence := 1 }], yolo_boxes := [] }

/-- Single-item environment where loading succeeds on non-empty inputs and
every adapter succeeds. -/
def okSingleEnv : SingleEnv :=
  { load_image := fun s => if s.length = 0 then .error "Cannot load image" else .ok ⟨s.length⟩
    assess_image := fun _ => .ok (sampleQuality, 5)
    classify_aircraft := fun _ => .ok (sampleAircraft, 6)
    classify_airline := fun _ => .ok (sampleAirline, 7)
    recognize_image := fun _ => .ok (sampleRegistration, 8) }

/-- Single-item environment where loading succeeds but all four adapters
raise. -/
def failingSingleEnv : SingleEnv :=
  { load_image := fun s => if s.length = 0 then .error "Cannot load image" else .ok ⟨s.length⟩
    assess_image := fun _ => .error "quality model crashed"
    classify_aircraft := fun _ => .error "aircraft model crashed"
    classify_airline := fun _ => .error "airline model crashed"
    recognize_image := fun _ => .error "ocr crashed" }

/-- Batch environment where loading succeeds on non-empty inputs and every
collaborator succeeds. -/
def okBatchEnv : BatchEnv Nat Nat :=
  { load_image := fun s => if s.length = 0 then .error "Cannot load image" else .ok ⟨s.length⟩
    assess_image := fun _ => .ok (sampleQuality, 5)
    aircraft := { predict := fun imgs => .ok (imgs.map fun _ => some 0)
                  result_wrapper := fun _ => .ok sampleAircraft }
    airline := { predict := fun imgs => .ok (imgs.map fun _ => some 1)
                 result_wrapper := fun _ => .ok sampleAirline }
    recognize_image := fun _ => .ok (sampleRegistration, 8) }

/-- Batch environment identical to `okBatchEnv` except that the whole
airline batch call raises. -/
def airlineThrowEnv : BatchEnv Nat Nat :=
  { okBatchEnv with
    airline := { predict := fun _ => .error "airline batch crashed"
                 result_wrapper := fun _ => .ok sampleAirline } }

/-- The review record a fully successful run of `okBatchEnv` produces. -/
def sampleReviewResult : ReviewResult :=
  { quality := mkReviewQuality sampleQuality,
    aircraft := mkReviewAircraft sampleAircraft,
    airline := some (mkReviewAirline sampleAirline),
    registration := some (mkReviewRegistration sampleRegistration) }

/-- The first batch item a concrete run of `okBatchEnv` produces. -/
def sampleBatchItem : BatchReviewItem :=
  { index := 0, success := true, data := some sampleReviewResult, error := none }

/-- The exception a computation surfaced, if any. -/
def raisedError (x : Except ε α) : Option ε :=
  match x with
  | .error e => some e
  | .ok _ => none

/-- All four sub-tasks requested. -/
def allFlags : ReviewFlags := ⟨true, true, true, true⟩

/-! Helper lemmas about the reassembly loop. -/

/-- Every branch of the reassembly body stamps the item with its loop
index. -/
theorem assemble_item_index (flags : ReviewFlags) (ie : List (Option String))
    (qr : Option (List (Option QualityResult)))
    (ar : Option (List (Option AircraftResult)))
    (lr : Option (List (Option AirlineResult)))
    (rr : Option (List (Option RegistrationResult))) (idx : Nat) :
    (assemble_item flags ie qr ar lr rr idx).index = idx := by
  unfold assemble_item build_item
  split
  · rfl
  · dsimp only
    split <;> rfl

/-- Every branch of the reassembly body satisfies the success/error/data
exclusivity invariant. -/
theorem assemble_item_exclusivity (flags : ReviewFlags) (ie : List (Option String))
    (qr : Option (List (Option QualityResult)))
    (ar : Option (List (Option AircraftResult)))
    (lr : Option (List (Option AirlineResult)))
    (rr : Option (List (Option RegistrationResult))) (idx : Nat) :
    ((assemble_item flags ie qr ar lr rr idx).success = true
      ↔ (assemble_item flags ie qr ar lr rr idx).error = none) ∧
    ((assemble_item flags ie qr ar lr rr idx).data ≠ none
      ↔ (assemble_item flags ie qr ar lr rr idx).success = true) := by
  unfold assemble_item build_item
  split
  · simp
  · dsimp only
    split <;> simp

/-- C1: for every batch review over N inputs, whatever subset of images
fails to load, the returned list has exactly N entries and the entry at
position i carries index i; the value of every sub-task collaborator (and
hence any internal reordering or compaction of the batch calls) is
universally quantified. -/
theorem review_batch_sparse_index_preservation (env : BatchEnv ARaw LRaw)
    (flags : ReviewFlags) (image_inputs : List String) :
    (ReviewService.review_batch env flags image_inputs).length = image_inputs.length ∧
    (ReviewService.review_batch env flags image_inputs).map (fun item => item.index)
      = List.range image_inputs.length := by
  constructor
  · simp [ReviewService.review_batch]
  · unfold ReviewService.review_batch
    rw [List.map_map]
    have h : ((fun item => item.index) ∘
        assemble_item flags (batch_image_errors env image_inputs)
          (batch_quality_results env flags image_inputs)
          (batch_aircraft_results env flags image_inputs)
          (batch_airline_results env flags image_inputs)
          (batch_registration_results env flags image_inputs))
        = fun idx => idx :=
      funext fun idx => assemble_item_index _ _ _ _ _ _ idx
    rw [h]
    exact List.map_id _

/-- C10: every item emitted by the batch pipeline has success exactly when
error is absent, and a data payload exactly when successful. -/
theorem review_batch_item_exclusivity (env : BatchEnv ARaw LRaw)
    (flags : ReviewFlags) (image_inputs : List String) (item : BatchReviewItem)
    (hmem : item ∈ ReviewService.review_batch env flags image_inputs) :
    (item.success = true ↔ item.error = none) ∧
    (item.data ≠ none ↔ item.success = true) := by
  unfold ReviewService.review_batch at hmem
  rcases List.mem_map.mp hmem with ⟨idx, _, rfl⟩
  exact assemble_item_exclusivity _ _ _ _ _ _ idx

/-- C10 witness: the exclusivity invariant evaluated on the item a concrete
batch run produces. -/
theorem review_batch_item_exclusivity_witness :
    (sampleBatchItem.success = true ↔ sampleBatchItem.error = none) ∧
    (sampleBatchItem.data ≠ none ↔ sampleBatchItem.success = true) :=
  review_batch_item_exclusivity okBatchEnv ⟨true, true, true, true⟩ ["good"]
    sampleBatchItem (by decide)

/-- C2: a single-item review raises exactly when the image cannot be
loaded, and it surfaces exactly the load error; whenever loading succeeds
the review returns normally, for every behaviour of the four sub-task
adapters (all of which may raise). -/
theorem review_fails_iff_image_load_fails (env : SingleEnv) (flags : ReviewFlags)
    (image_input : String) (clock : Nat → Rat) :
    (ReviewService.review env flags image_input clock).toOption.isSome
      = (env.load_image image_input).toOption.isSome ∧
    raisedError (ReviewService.review env flags image_input clock)
      = raisedError (env.load_image image_input) := by
  cases hload : env.load_image image_input with
  | error e =>
    constructor <;> simp [ReviewService.review, hload, raisedError, Except.toOption]
  | ok img =>
    constructor <;> simp [ReviewService.review, hload, raisedError, Except.toOption]

/-- C3: in a single-item review with quality enabled whose quality adapter
raises, the returned record still carries a quality field, with score 0 and
pass false and no details; likewise an aircraft adapter failure yields an
aircraft field with type code UNKNOWN and confidence 0. -/
theorem review_mandatory_defaults_on_adapter_failure (env : SingleEnv)
    (flags : ReviewFlags) (image_input : String) (clock : Nat → Rat)
    (img : PILImage) (hload : env.load_image image_input = .ok img)
    (hq : flags.include_quality = true) (ha : flags.include_aircraft = true) :
    ((env.assess_image img).toOption = none →
      (ReviewService.review env flags image_input clock).toOption.map
        (fun p => p.1.quality) = some defaultReviewQuality) ∧
    ((env.classify_aircraft img).toOption = none →
      (ReviewService.review env flags image_input clock).toOption.map
        (fun p => p.1.aircraft) = some defaultReviewAircraft) := by
  constructor <;> intro hfail
  · cases hres : env.assess_image img with
    | ok v => rw [hres] at hfail; simp [Except.toOption] at hfail
    | error e =>
      simp [ReviewService.review, hload, hq, BaseService.safe_execute, hres,
        Except.toOption]
  · cases hres : env.classify_aircraft img with
    | ok v => rw [hres] at hfail; simp [Except.toOption] at hfail
    | error e =>
      simp [ReviewService.review, hload, ha, BaseService.safe_execute, hres,
        Except.toOption]

/-- C3 witness: the defaults obtained from a concrete run whose quality and
aircraft adapters raise. -/
theorem review_mandatory_defaults_witness :
    ((failingSingleEnv.assess_image ⟨4⟩).toOption = none →
      (ReviewService.review failingSingleEnv allFlags "good"
        (fun _ => 0)).toOption.map (fun p => p.1.quality) = some defaultReviewQuality) ∧
    ((failingSingleEnv.classify_aircraft ⟨4⟩).toOption = none →
      (ReviewService.review failingSingleEnv allFlags "good"
        (fun _ => 0)).toOption.map (fun p => p.1.aircraft) = some defaultReviewAircraft) :=
  review_mandatory_defaults_on_adapter_failure failingSingleEnv allFlags
    "good" (fun _ => 0) ⟨4⟩ rfl rfl rfl

/-- C4: in a single-item review, the airline field is absent whenever the
airline adapter raises or the airline sub-task was not requested, and the
registration field behaves the same way; neither is ever filled with a
placeholder. -/
theorem review_optional_omitted_on_failure_or_not_requested (env : SingleEnv)
    (flags : ReviewFlags) (image_input : String) (clock : Nat → Rat)
    (img : PILImage) (hload : env.load_image image_input = .ok img) :
    ((flags.include_airline = false ∨ (env.classify_airline img).toOption = none) →
      (ReviewService.review env flags image_input clock).toOption.map
        (fun p => p.1.airline) = some none) ∧
    ((flags.include_registration = false ∨ (env.recognize_image img).toOption = none) →
      (ReviewService.review env flags image_input clock).toOption.map
        (fun p => p.1.registration) = some none) := by
  constructor
  · rintro (hflag | hfail)
    · simp [ReviewService.review, hload, hflag, BaseService.safe_execute,
        Except.toOption]
    · cases hres : env.classify_airline img with
      | ok v => rw [hres] at hfail; simp [Except.toOption] at hfail
      | error e =>
        by_cases hl : flags.include_airline <;>
          simp [ReviewService.review, hload, hl, BaseService.safe_execute, hres,
            Except.toOption]
  · rintro (hflag | hfail)
    · simp [ReviewService.review, hload, hflag, BaseService.safe_execute,
        Except.toOption]
    · cases hres : env.recognize_image img with
      | ok v => rw [hres] at hfail; simp [Except.toOption] at hfail
      | error e =>
        by_cases hr : flags.include_registration <;>
          simp [ReviewService.review, hload, hr, BaseService.safe_execute, hres,
            Except.toOption]

/-- C4 witness: the omitted optional fields obtained from a concrete run
whose airline and registration adapters raise. -/
theorem review_optional_omitted_witness :
    ((allFlags.include_airline = false ∨
        (failingSingleEnv.classify_airline ⟨4⟩).toOption = none) →
      (ReviewService.review failingSingleEnv allFlags "good"
        (fun _ => 0)).toOption.map (fun p => p.1.airline) = some none) ∧
    ((allFlags.include_registration = false ∨
        (failingSingleEnv.recognize_image ⟨4⟩).toOption = none) →
      (ReviewService.review failingSingleEnv allFlags "good"
        (fun _ => 0)).toOption.map (fun p => p.1.registration) = some none) :=
  review_optional_omitted_on_failure_or_not_requested failingSingleEnv
    allFlags "good" (fun _ => 0) ⟨4⟩ rfl

/-- C8: the review record of a single-item run does not depend on the wall
clock; only the separately returned elapsed-time component does, so two
runs over the same input and the same deterministic collaborators return
equal records. -/
theorem review_result_independent_of_clock (env : SingleEnv) (flags : ReviewFlags)
    (image_input : String) (clock1 clock2 : Nat → Rat) :
    (ReviewService.review env flags image_input clock1).map Prod.fst
      = (ReviewService.review env flags image_input clock2).map Prod.fst := by
  cases hload : env.load_image image_input <;>
    simp [ReviewService.review, hload, Except.map]

/-- C9: the batch route response reports total equal to the number of
inputs, successful equal to the number of items flagged successful, and
total equal to successful plus failed. -/
theorem review_batch_route_counts_consistent (env : BatchEnv ARaw LRaw)
    (flags : ReviewFlags) (image_inputs : List String) :
    (review_batch_route env flags image_inputs).total = image_inputs.length ∧
    (review_batch_route env flags image_inputs).successful
      = ((review_batch_route env flags image_inputs).results.filter
          fun r => r.success).length ∧
    (review_batch_route env flags image_inputs).total
      = (review_batch_route env flags image_inputs).successful
        + (review_batch_route env flags image_inputs).failed := by
  refine ⟨?_, rfl, ?_⟩
  · simp [review_batch_route, ReviewService.review_batch]
  · have hle := List.length_filter_le (fun r => r.success)
      (ReviewService.review_batch env flags image_inputs)
    simp only [review_batch_route]
    omega

/-- C6: with the shared store unreachable, any sequence of increments
leaves the connection state unchanged (each one is dropped, with no local
fallback accumulation) and the degraded read returns the zero-valued
payload with the explicit unavailability flag; both caller-facing
operations are total functions, so no exception reaches the caller. -/
theorem counters_unreachable_store_degrades (ops : List Bool) (now : Rat) :
    ops.foldl RedisStatsManager.increment_request_count RedisConn.unreachable
      = RedisConn.unreachable ∧
    RedisStatsManager.get_request_stats RedisConn.unreachable now
      = (RedisConn.unreachable, unavailableStats) ∧
    unavailableStats.total_requests = 0 ∧
    unavailableStats.successful_requests = 0 ∧
    unavailableStats.failed_requests = 0 ∧
    unavailableStats.uptime_seconds = 0 ∧
    unavailableStats.requests_per_second = 0 ∧
    unavailableStats.error = some "Redis unavailable" := by
  refine ⟨?_, rfl, rfl, rfl, rfl, rfl, rfl, rfl⟩
  induction ops with
  | nil => rfl
  | cons b bs ih =>
    simpa [RedisStatsManager.increment_request_count, redis_incr_pipeline] using ih

/-- C7 counterexample: with all four sub-tasks enabled and every adapter
stubbed to one time unit, the single-item pipeline takes four units while
the slowest enabled sub-task takes one, so single-item sub-task latency is
not bounded by the slowest enabled sub-task. -/
theorem single_review_latency_counterexample :
    ¬ ((review_orchestration ⟨true, true, true, true⟩ ⟨1, 1, 1, 1⟩).elapsed
        ≤ slowest_enabled_latency ⟨true, true, true, true⟩ ⟨1, 1, 1, 1⟩) := by
  decide

/-- C7 (amended): the batch pipeline dispatches its enabled sub-task batch
calls through one fan-out/fan-in join, so that phase's latency equals the
slowest enabled sub-task; the single-item pipeline invokes its enabled
adapters sequentially, so its sub-task latency is the sum of the enabled
durations, which is at least (not bounded by) the slowest. -/
theorem orchestration_latency_characterization (flags : ReviewFlags)
    (d : SubtaskDurations) :
    (review_batch_orchestration flags d).elapsed = slowest_enabled_latency flags d ∧
    (review_orchestration flags d).elapsed = total_enabled_latency flags d ∧
    slowest_enabled_latency flags d ≤ (review_orchestration flags d).elapsed := by
  obtain ⟨q, a, l, r⟩ := flags
  cases q <;> cases a <;> cases l <;> cases r <;>
    simp [review_batch_orchestration, review_orchestration, subtask,
      slowest_enabled_latency, total_enabled_latency, Orchestration.elapsed] <;>
    omega

/-! Helper lemmas for the batch degradation claim. -/

/-- Looking anything up in an all-`none` scatter list gives `none`. -/
theorem lookup_result_map_none (l : List β) (idx : Nat) :
    lookup_result (some (l.map fun _ => (none : Option α))) idx = none := by
  simp only [lookup_result, List.get?_map]
  cases l.get? idx <;> simp

/-- When the raw batch predictor always raises, the classification batch
helper contributes nothing at any index: either no image loaded and it
returns the all-`none` list, or the whole call surfaces the exception. -/
theorem classify_batch_lookup_none_of_predict_error (cenv : ClassifierEnv Raw Res)
    (images : List (Option PILImage)) (msg : String)
    (hpred : ∀ imgs, cenv.predict imgs = .error msg) (idx : Nat) :
    lookup_result (ClassificationServiceBase.classify_batch cenv images).toOption idx
      = none := by
  by_cases h : (images.enum.filterMap fun p => p.2.map fun img => (p.1, img)).isEmpty
  · simp only [ClassificationServiceBase.classify_batch, h, if_true]
    simpa [Except.toOption] using lookup_result_map_none (α := Res) images idx
  · simp [ClassificationServiceBase.classify_batch, h, hpred, Except.toOption,
      lookup_result]

/-- The batch output at an in-range index is the reassembly body at that
index. -/
theorem review_batch_get? (env : BatchEnv ARaw LRaw) (flags : ReviewFlags)
    (image_inputs : List String) (idx : Nat) (h : idx < image_inputs.length) :
    (ReviewService.review_batch env flags image_inputs).get? idx
      = some (assemble_item flags (batch_image_errors env image_inputs)
          (batch_quality_results env flags image_inputs)
          (batch_aircraft_results env flags image_inputs)
          (batch_airline_results env flags image_inputs)
          (batch_registration_results env flags image_inputs) idx) := by
  unfold ReviewService.review_batch
  rw [List.get?_map, List.get?_range h]
  rfl

/-- At an index whose image loaded, the recorded per-index load error is
`none`. -/
theorem batch_image_errors_get?_ok (env : BatchEnv ARaw LRaw)
    (image_inputs : List String) (idx : Nat) (s : String)
    (hs : image_inputs.get? idx = some s)
    (hok : (env.load_image s).toOption.isSome = true) :
    (batch_image_errors env image_inputs).get? idx = some none := by
  unfold batch_image_errors
  rw [List.get?_map, List.get?_map, hs]
  cases hload : env.load_image s with
  | ok img => simp [load_pair, hload]
  | error e => rw [hload] at hok; simp [Except.toOption] at hok

/-- The try block output when the two mandatory sub-tasks are requested:
always a successful item, with the mandatory defaults substituted for
absent quality or aircraft lookups. -/
theorem build_item_mandatory (flags : ReviewFlags)
    (q : Option QualityResult) (a : Option AircraftResult)
    (l : Option AirlineResult) (r : Option RegistrationResult) (idx : Nat)
    (hq : flags.include_quality = true) (ha : flags.include_aircraft = true) :
    build_item flags q a l r idx
      = { index := idx, success := true,
          data := some
            { quality := (match q with
                | some x => mkReviewQuality x
                | none => defaultReviewQuality),
              aircraft := (match a with
                | some x => mkReviewAircraft x
                | none => defaultReviewAircraft),
              airline :=
                if flags.include_airline then l.map mkReviewAirline else none,
              registration :=
                if flags.include_registration then r.map mkReviewRegistration
                else none },
          error := none } := by
  unfold build_item
  simp [hq, ha]

/-- The try block ignores whether an absent airline lookup came from a
disabled flag or from a failed batch call. -/
theorem build_item_airline_disabled (flags : ReviewFlags)
    (q : Option QualityResult) (a : Option AircraftResult)
    (r : Option RegistrationResult) (idx : Nat) :
    build_item flags q a none r idx
      = build_item { flags with include_airline := false } q a none r idx := by
  unfold build_item
  simp

/-- The reassembly body at an index with no load error, when the two
mandatory sub-tasks are requested: a successful item whose four fields
follow the mandatory/optional policy applied to the per-index lookups. -/
theorem assemble_item_loaded (flags : ReviewFlags) (ie : List (Option String))
    (qr : Option (List (Option QualityResult)))
    (ar : Option (List (Option AircraftResult)))
    (lr : Option (List (Option AirlineResult)))
    (rr : Option (List (Option RegistrationResult))) (idx : Nat)
    (hie : (ie.get? idx).getD none = none)
    (hq : flags.include_quality = true) (ha : flags.include_aircraft = true) :
    assemble_item flags ie qr ar lr rr idx
      = { index := idx, success := true,
          data := some
            { quality := (match lookup_result qr idx with
                | some q => mkReviewQuality q
                | none => defaultReviewQuality),
              aircraft := (match lookup_result ar idx with
                | some a => mkReviewAircraft a
                | none => defaultReviewAircraft),
              airline :=
                if flags.include_airline then
                  (lookup_result lr idx).map mkReviewAirline
                else none,
              registration :=
                if flags.include_registration then
                  (lookup_result rr idx).map mkReviewRegistration
                else none },
          error := none } := by
  unfold assemble_item
  rw [hie]
  exact build_item_mandatory flags _ _ _ _ idx hq ha

/-- Dropping an airline result list that contributes nothing at any index
is the same as not requesting the airline sub-task at all. -/
theorem assemble_item_airline_disabled (flags : ReviewFlags)
    (ie : List (Option String))
    (qr : Option (List (Option QualityResult)))
    (ar : Option (List (Option AircraftResult)))
    (lr : Option (List (Option AirlineResult)))
    (rr : Option (List (Option RegistrationResult))) (idx : Nat)
    (hlr : lookup_result lr idx = none) :
    assemble_item flags ie qr ar lr rr idx
      = assemble_item { flags with include_airline := false } ie qr ar none rr idx := by
  unfold assemble_item
  cases hie : (ie.get? idx).getD none with
  | some e => rfl
  | none =>
    rw [hlr]
    exact build_item_airline_disabled flags _ _ _ idx

/-- C5 counterexample: a batch whose single input loads successfully, with
aircraft and airline enabled, quality and registration not requested, and
exactly one enabled sub-task (airline) whose whole batch call throws; the
claim promises the loaded item still succeeds with the other results
assembled, but the code returns a per-item failure, because the reassembly
builds a ReviewResult without its required quality field. -/
theorem review_batch_subtask_throw_counterexample :
    (airlineThrowEnv.load_image "good").toOption.isSome = true ∧
    airlineThrowEnv.airline.predict [⟨4⟩] = .error "airline batch crashed" ∧
    ReviewService.review_batch airlineThrowEnv ⟨false, true, true, false⟩ ["good"]
      = [{ index := 0, success := false, data := none,
           error := some "Review failed: 1 validation error for ReviewResult" }] :=
  ⟨rfl, rfl, by decide⟩

/-- C5 (amended): in every batch review with the two mandatory sub-tasks
(quality, aircraft) requested, if the whole airline batch call throws, the
output is exactly the output of the same batch with airline not requested
(airline absent everywhere, everything else assembled unchanged) and every
index whose image loaded still yields a successful item with a data
payload whose airline field is absent; symmetrically, if the whole
aircraft batch call throws, every loaded index yields a successful item
whose aircraft field is the documented default. -/
theorem review_batch_subtask_throw_degrades (env : BatchEnv ARaw LRaw)
    (flags : ReviewFlags) (image_inputs : List String) (msg : String)
    (hq : flags.include_quality = true) (ha : flags.include_aircraft = true) :
    (flags.include_airline = true →
      (∀ imgs, env.airline.predict imgs = .error msg) →
      ReviewService.review_batch env flags image_inputs
        = ReviewService.review_batch env
            { flags with include_airline := false } image_inputs ∧
      ∀ idx s, image_inputs.get? idx = some s →
        (env.load_image s).toOption.isSome = true →
        ((ReviewService.review_batch env flags image_inputs).get? idx).map
            (fun item => (item.success, item.error, item.data.map fun r => r.airline))
          = some (true, none, some none)) ∧
    ((∀ imgs, env.aircraft.predict imgs = .error msg) →
      ∀ idx s, image_inputs.get? idx = some s →
        (env.load_image s).toOption.isSome = true →
        ((ReviewService.review_batch env flags image_inputs).get? idx).map
            (fun item => (item.success, item.error, item.data.map fun r => r.aircraft))
          = some (true, none, some defaultReviewAircraft)) := by
  have hlookupA : ∀ (hl : flags.include_airline = true)
      (_ : ∀ imgs, env.airline.predict imgs = .error msg) (idx : Nat),
      lookup_result (batch_airline_results env flags image_inputs) idx = none := by
    intro hl hpred idx
    simp only [batch_airline_results, hl, if_true]
    exact classify_batch_lookup_none_of_predict_error env.airline _ msg hpred idx
  constructor
  · intro hl hpred
    constructor
    · unfold ReviewService.review_batch
      refine List.map_congr_left ?_
      intro idx _
      exact assemble_item_airline_disabled flags _ _ _ _ _ idx (hlookupA hl hpred idx)
    · intro idx s hs hok
      obtain ⟨h, -⟩ := List.get?_eq_some.mp hs
      rw [review_batch_get? env flags image_inputs idx h]
      have hie : ((batch_image_errors env image_inputs).get? idx).getD none = none := by
        rw [batch_image_errors_get?_ok env image_inputs idx s hs hok]; rfl
      rw [assemble_item_loaded flags _ _ _ _ _ idx hie hq ha]
      simp [hlookupA hl hpred idx, hl]
  · intro hpred idx s hs hok
    obtain ⟨h, -⟩ := List.get?_eq_some.mp hs
    rw [review_batch_get? env flags image_inputs idx h]
    have hie : ((batch_image_errors env image_inputs).get? idx).getD none = none := by
      rw [batch_image_errors_get?_ok env image_inputs idx s hs hok]; rfl
    rw [assemble_item_loaded flags _ _ _ _ _ idx hie hq ha]
    have hlookupB : lookup_result (batch_aircraft_results env flags image_inputs) idx
        = none := by
      simp only [batch_aircraft_results, ha, if_true]
      exact classify_batch_lookup_none_of_predict_error env.aircraft _ msg hpred idx
    simp [hlookupB]

/-- C5 witness: the degradation evaluated on a concrete batch whose airline
batch call throws while everything else succeeds. -/
theorem review_batch_subtask_throw_degrades_witness :
    (ReviewService.review_batch airlineThrowEnv allFlags ["good"]
      = ReviewService.review_batch airlineThrowEnv
          { allFlags with include_airline := false } ["good"]) ∧
    ((ReviewService.review_batch airlineThrowEnv allFlags ["good"]).get? 0).map
        (fun item => (item.success, item.error, item.data.map fun r => r.airline))
      = some (true, none, some none) :=
  have h := (review_batch_subtask_throw_degrades airlineThrowEnv allFlags ["good"]
    "airline batch crashed" rfl rfl).1 rfl (fun _ => rfl)
  ⟨h.1, h.2 0 "good" rfl rfl⟩

end AeroVision
